import Mathlib

/-!
Shallow embedding of `src/react-flask-app/frontend/src/App.js`, the single
source file of the ThatBot chat client.  The React component's state hooks
become fields of `AppState`; each event handler becomes a pure function from
the old state (plus the explicit outcome of any network call it awaits) to the
new state together with its externally visible effects (the issued request,
alerts).  JavaScript `null`/`undefined` become `Option`, and JS string
falsiness (`!s` true for `null` and `""`) is modelled explicitly.
-/

namespace ThatBot

/-- `msg.sender` field: 'user' or 'bot'. -/
inductive Sender where
  | user
  | bot
deriving DecidableEq, Repr

/-- A message object as built in App.js: `{ sender, text, image }`.
`image` is the (possibly null) object URL stored in the message. -/
structure Message where
  sender : Sender
  text : String
  image : Option String := none
deriving DecidableEq, Repr

/-- The file object passed to `handleFileChange` (`event.target.files[0]`):
we keep the fields the code reads — its MIME `type` and a name identifying
its contents for `URL.createObjectURL`. -/
structure ChatFile where
  type : String
  name : String
deriving DecidableEq, Repr

/-- Embedding of `URL.createObjectURL(file)`: an injective reference to the
file's contents. -/
def createObjectURL (f : ChatFile) : String :=
  "blob:" ++ f.name

/-- `appStatus` hook values: 'loading', 'ready', 'error' (App.js line 25). -/
inductive AppStatus where
  | loading
  | ready
  | error
deriving DecidableEq, Repr

/-- The component state of `App` (the useState hooks of App.js lines 16-25). -/
structure AppState where
  messages : List Message
  input : String
  isLoading : Bool
  isListening : Bool
  selectedFile : Option ChatFile
  filePreview : Option String
  sessionId : Option String
  appStatus : AppStatus
deriving DecidableEq, Repr

/-- The initial hook values of App.js lines 16-25. -/
def initialState : AppState :=
  { messages := []
    input := ""
    isLoading := false
    isListening := false
    selectedFile := none
    filePreview := none
    sessionId := none
    appStatus := .loading }

/-- JS string falsiness on a nullable string: `!s` holds for `null` and `""`. -/
def isFalsyStr : Option String → Bool
  | none => true
  | some str => str == ""

/-- Outcome of `fetch('http://127.0.0.1:5000/history?...')` as observed by
`fetchHistory` (App.js lines 38-57): a 2xx response with a parsed JSON body,
a non-2xx response whose JSON body may carry an `error` field, or a thrown
transport/parse error. -/
inductive HistoryResponse where
  | ok (history : List Message)
  | httpError (errField : Option String)
  | netError (msg : String)
deriving DecidableEq, Repr

/-- Embedding of `fetchHistory` (App.js lines 38-57).  On `response.ok` it
sets `messages` to the history, or to the single greeting message when the
history is empty, and sets `appStatus` to 'ready'; on a non-ok response it
throws (the `data.error || ...` message) and the catch sets `appStatus` to
'error'; a thrown transport error likewise reaches the catch. -/
def fetchHistory (resp : HistoryResponse) (s : AppState) : AppState :=
  match resp with
  | .ok history =>
      if history.length > 0 then
        { s with messages := history, appStatus := .ready }
      else
        { s with
            messages := [{ sender := .bot
                           text := "Hello! I am ThatBot. How can I help you?" }]
            appStatus := .ready }
  | .httpError _ => { s with appStatus := .error }
  | .netError _ => { s with appStatus := .error }

/-- Effect of `handleVoiceListen` (App.js lines 74-83) other than state. -/
inductive VoiceEffect where
  | alertUnsupported
  | startRecognition
  | stopRecognition
deriving DecidableEq, Repr

/-- Embedding of `handleVoiceListen` (App.js lines 74-83).  The module-level
constant `recognition` (null when the browser lacks SpeechRecognition) is
passed as the flag `recognitionAvailable`. -/
def handleVoiceListen (recognitionAvailable : Bool) (s : AppState) :
    AppState × VoiceEffect :=
  if !recognitionAvailable then
    (s, .alertUnsupported)
  else if s.isListening then
    ({ s with isListening := !s.isListening }, .stopRecognition)
  else
    ({ s with input := "", isListening := !s.isListening }, .startRecognition)

/-- Embedding of JavaScript `String.prototype.startsWith` (used at App.js
line 87), by structural recursion over the character lists so it evaluates
by kernel reduction. -/
def jsStartsWith (s p : String) : Bool :=
  p.data.isPrefixOf s.data

/-- Embedding of `handleFileChange` (App.js lines 85-93).  The argument is
`event.target.files[0]`, which is absent when the dialog is cancelled.  The
returned `Bool` records whether the validation `alert` fired. -/
def handleFileChange (file : Option ChatFile) (s : AppState) :
    AppState × Bool :=
  match file with
  | some f =>
      if jsStartsWith f.type "image/" then
        ({ s with selectedFile := some f
                  filePreview := some (createObjectURL f) }, false)
      else
        (s, true)
  | none => (s, false)

/-- Embedding of `removeFile` (App.js lines 95-99). -/
def removeFile (s : AppState) : AppState :=
  { s with selectedFile := none, filePreview := none }

/-- The multipart form data issued by `handleSend` (App.js lines 109-114). -/
structure ChatRequest where
  sessionId : String
  message : String
  file : Option ChatFile
deriving DecidableEq, Repr

/-- Outcome of `fetch('http://127.0.0.1:5000/chat', ...)` followed by
`response.json()` as observed by `handleSend`: a 2xx response carrying
`{reply}`, a non-2xx response whose body may carry `error`, or a thrown
transport/parse error. -/
inductive ChatResponse where
  | ok (reply : String)
  | httpError (errField : Option String)
  | netError (msg : String)
deriving DecidableEq, Repr

/-- Whether the response took the success path (`response.ok` and no throw). -/
def ChatResponse.isOk : ChatResponse → Bool
  | .ok _ => true
  | _ => false

/-- The `error.message` reaching the catch block of `handleSend` on a failed
request: `data.error || 'Network response was not ok'` for a non-2xx
response (App.js line 126; note JS `||` also replaces an empty string), or
the thrown transport error's message.  `""` for a success, where no error
is thrown. -/
def failureReason : ChatResponse → String
  | .ok _ => ""
  | .httpError errField =>
      match errField with
      | some msg => if msg == "" then "Network response was not ok" else msg
      | none => "Network response was not ok"
  | .netError msg => msg

/-- Embedding of JavaScript `String.prototype.trim` (used at App.js line
102): strip leading and trailing whitespace.  Defined by structural
recursion over the character list so it evaluates by kernel reduction. -/
def jsTrim (s : String) : String :=
  ⟨((s.data.dropWhile Char.isWhitespace).reverse.dropWhile
      Char.isWhitespace).reverse⟩

/-- The input guard of `handleSend` (App.js line 103):
`(textInput === '' && !selectedFile) || !sessionId` returns early. -/
def sendGuardFails (s : AppState) : Bool :=
  (jsTrim s.input == "" && s.selectedFile.isNone) || isFalsyStr s.sessionId

/-- The synchronous prefix of `handleSend` after the guard passes, up to the
first `await` (App.js lines 105-117): set `isLoading` true, append the
optimistic user message (built from the trimmed input and the current
preview), build the form data from the pre-clear values, then clear the
input and the pending attachment. -/
def handleSendStart (s : AppState) : AppState × ChatRequest :=
  let textInput := jsTrim s.input
  let userMessage : Message :=
    { sender := .user, text := textInput, image := s.filePreview }
  let req : ChatRequest :=
    { sessionId := (s.sessionId.getD "")
      message := textInput
      file := s.selectedFile }
  let s1 := { s with isLoading := true, messages := s.messages ++ [userMessage] }
  let s2 := { s1 with input := "" }
  (removeFile s2, req)

/-- The continuation of `handleSend` once the response arrives (App.js lines
119-136): on success append the bot reply; on failure the catch appends a
synthetic bot message carrying the failure reason; the `finally` clears
`isLoading` on both paths. -/
def handleSendFinish (resp : ChatResponse) (s : AppState) : AppState :=
  match resp with
  | .ok reply =>
      { s with messages := s.messages ++ [{ sender := .bot, text := reply }]
               isLoading := false }
  | _ =>
      { s with
          messages := s.messages ++
            [{ sender := .bot
               text := "Sorry, something went wrong: " ++ failureReason resp }]
          isLoading := false }

/-- Embedding of `handleSend` (App.js lines 101-137), given the outcome of
the one network call it awaits.  Returns the new state and the request it
issued, if any.  The JS function never throws: every response shape is
handled by the try/catch, which this total function mirrors. -/
def handleSend (resp : ChatResponse) (s : AppState) :
    AppState × Option ChatRequest :=
  if sendGuardFails s then
    (s, none)
  else
    let started := handleSendStart s
    (handleSendFinish resp started.1, some started.2)

/-- `h` contains `n` as a substring. -/
def containsStr (h n : String) : Prop :=
  ∃ a b, h = a ++ n ++ b

end ThatBot

namespace ThatBot

/-- A ready-state fixture used in witnesses: text "hello" typed, a session
present, history already loaded. -/
def readyState : AppState :=
  { initialState with
      input := "hello"
      sessionId := some "session_1_abc"
      appStatus := .ready }

/-- Claim C1: a send from the ready state with non-empty text and a busy
flag that is false, when the backend replies successfully, appends exactly
two entries in order — the user message carrying the given text, then one
bot message whose text is the reply payload — and the busy flag is false
again afterwards. -/
theorem send_success_appends_user_then_bot (s : AppState) (reply : String)
    (hin : jsTrim s.input = s.input) (hne : s.input ≠ "")
    (hsid : isFalsyStr s.sessionId = false) (hbusy : s.isLoading = false) :
    (handleSend (.ok reply) s).1.messages =
      s.messages ++
        [{ sender := .user, text := s.input, image := s.filePreview },
         { sender := .bot, text := reply, image := none }] ∧
    s.isLoading = false ∧ (handleSend (.ok reply) s).1.isLoading = false := by
  have hguard : sendGuardFails s = false := by
    simp [sendGuardFails, hsid, hin, hne]
  refine ⟨?_, hbusy, ?_⟩ <;>
    simp [handleSend, hguard, handleSendStart, handleSendFinish, removeFile, hin]

/-- Witness for C1 at a concrete ready state and reply "hi". -/
theorem send_success_appends_user_then_bot_witness :
    (handleSend (.ok "hi") readyState).1.messages =
      readyState.messages ++
        [{ sender := .user, text := readyState.input,
           image := readyState.filePreview },
         { sender := .bot, text := "hi", image := none }] ∧
    readyState.isLoading = false ∧
    (handleSend (.ok "hi") readyState).1.isLoading = false :=
  send_success_appends_user_then_bot readyState "hi"
    (by decide) (by decide) (by decide) (by decide)

end ThatBot

namespace ThatBot

/-- Claim C2: a send that passes its guard and whose request fails (network
error, or a non-2xx response whether or not it carries an `error` body)
appends exactly one user entry and one bot entry, the bot entry's text
contains the failure reason, and (the embedding being a total function that
handles every response shape in the catch) nothing is thrown to the
caller. -/
theorem send_failure_appends_error_entry (s : AppState) (resp : ChatResponse)
    (hguard : sendGuardFails s = false) (hfail : resp.isOk = false) :
    (handleSend resp s).1.messages =
      s.messages ++
        [{ sender := .user, text := jsTrim s.input, image := s.filePreview },
         { sender := .bot,
           text := "Sorry, something went wrong: " ++ failureReason resp,
           image := none }] ∧
    containsStr ("Sorry, something went wrong: " ++ failureReason resp)
      (failureReason resp) ∧
    (handleSend resp s).1.isLoading = false := by
  refine ⟨?_, ⟨"Sorry, something went wrong: ", "", by simp⟩, ?_⟩ <;>
    cases resp with
    | ok reply => simp [ChatResponse.isOk] at hfail
    | httpError errField =>
        simp [handleSend, hguard, handleSendStart, handleSendFinish, removeFile]
    | netError msg =>
        simp [handleSend, hguard, handleSendStart, handleSendFinish, removeFile]

/-- Witness for C2 at a concrete ready state and a mocked network error. -/
theorem send_failure_appends_error_entry_witness :
    (handleSend (.netError "Failed to fetch") readyState).1.messages =
      readyState.messages ++
        [{ sender := .user, text := jsTrim readyState.input,
           image := readyState.filePreview },
         { sender := .bot,
           text := "Sorry, something went wrong: " ++
             failureReason (.netError "Failed to fetch"),
           image := none }] ∧
    containsStr
      ("Sorry, something went wrong: " ++
        failureReason (.netError "Failed to fetch"))
      (failureReason (.netError "Failed to fetch")) ∧
    (handleSend (.netError "Failed to fetch") readyState).1.isLoading = false :=
  send_failure_appends_error_entry readyState (.netError "Failed to fetch")
    (by decide) (by decide)

/-- Claim C3: when the guard passes and the busy flag was false, the
synchronous prefix before the first await sets the busy flag to true, and
after completion — whatever the response, success or failure — the
`finally` clause has set it back to false. -/
theorem send_busy_flag_guaranteed_release (s : AppState) (resp : ChatResponse)
    (hguard : sendGuardFails s = false) (hbusy : s.isLoading = false) :
    s.isLoading = false ∧
    (handleSendStart s).1.isLoading = true ∧
    (handleSend resp s).1.isLoading = false := by
  refine ⟨hbusy, by simp [handleSendStart, removeFile], ?_⟩
  cases resp <;>
    simp [handleSend, hguard, handleSendStart, handleSendFinish, removeFile]

/-- Witness for C3 at a concrete ready state and a success response. -/
theorem send_busy_flag_guaranteed_release_witness :
    readyState.isLoading = false ∧
    (handleSendStart readyState).1.isLoading = true ∧
    (handleSend (.ok "hi") readyState).1.isLoading = false :=
  send_busy_flag_guaranteed_release readyState (.ok "hi") (by decide) (by decide)

end ThatBot

namespace ThatBot

/-- Whether the history fetch took the success path (`response.ok` and no
throw). -/
def HistoryResponse.isOk : HistoryResponse → Bool
  | .ok _ => true
  | _ => false

/-- Claim C4: a successful history load installs the returned sequence when
it is non-empty, a single greeting message when it is empty, and transitions
the status to ready in both cases. -/
theorem fetchHistory_success_populates_log (s : AppState)
    (history : List Message) :
    (history ≠ [] →
      fetchHistory (.ok history) s =
        { s with messages := history, appStatus := .ready }) ∧
    (history = [] →
      (fetchHistory (.ok history) s).messages =
        [{ sender := .bot, text := "Hello! I am ThatBot. How can I help you?"
           image := none }] ∧
      (fetchHistory (.ok history) s).messages.length = 1 ∧
      (fetchHistory (.ok history) s).appStatus = .ready) := by
  constructor
  · intro hne
    have hlen : 0 < history.length := List.length_pos.mpr hne
    simp [fetchHistory, hlen]
  · intro hempty
    subst hempty
    simp [fetchHistory]

/-- Witness for C4: both branches at concrete histories. -/
theorem fetchHistory_success_populates_log_witness :
    fetchHistory (.ok [{ sender := .user, text := "hey", image := none }])
        initialState =
      { initialState with
          messages := [{ sender := .user, text := "hey", image := none }]
          appStatus := .ready } ∧
    (fetchHistory (.ok []) initialState).messages =
      [{ sender := .bot, text := "Hello! I am ThatBot. How can I help you?"
         image := none }] ∧
    (fetchHistory (.ok []) initialState).messages.length = 1 ∧
    (fetchHistory (.ok []) initialState).appStatus = .ready :=
  ⟨(fetchHistory_success_populates_log initialState
      [{ sender := .user, text := "hey", image := none }]).1 (by decide),
   (fetchHistory_success_populates_log initialState []).2 rfl⟩

/-- Claim C5: a failed history load (transport error or non-2xx response)
sets the status to error and leaves the conversation log untouched; and no
other operation of the component ever changes the status, so the error
state is terminal within the activation. -/
theorem fetchHistory_failure_terminal (s : AppState) (resp : HistoryResponse)
    (hfail : resp.isOk = false) :
    (fetchHistory resp s).appStatus = .error ∧
    (fetchHistory resp s).messages = s.messages ∧
    (∀ t r, (handleSend r t).1.appStatus = t.appStatus) ∧
    (∀ t f, (handleFileChange f t).1.appStatus = t.appStatus) ∧
    (∀ t b, (handleVoiceListen b t).1.appStatus = t.appStatus) := by
  refine ⟨?_, ?_, ?_, ?_, ?_⟩
  · cases resp with
    | ok history => simp [HistoryResponse.isOk] at hfail
    | httpError errField => simp [fetchHistory]
    | netError msg => simp [fetchHistory]
  · cases resp with
    | ok history => simp [HistoryResponse.isOk] at hfail
    | httpError errField => simp [fetchHistory]
    | netError msg => simp [fetchHistory]
  · intro t r
    by_cases hg : sendGuardFails t
    · simp [handleSend, hg]
    · cases r <;>
        simp [handleSend, hg, handleSendStart, handleSendFinish, removeFile]
  · intro t f
    match f with
    | some file =>
        by_cases him : jsStartsWith file.type "image/"
        · simp [handleFileChange, him]
        · simp [handleFileChange, him]
    | none => simp [handleFileChange]
  · intro t b
    cases b with
    | false => simp [handleVoiceListen]
    | true =>
        by_cases hl : t.isListening
        · simp [handleVoiceListen, hl]
        · simp [handleVoiceListen, hl]

/-- Witness for C5 at a mocked transport failure on the initial state. -/
theorem fetchHistory_failure_terminal_witness :
    (fetchHistory (.netError "Failed to fetch") initialState).appStatus =
      .error ∧
    (fetchHistory (.netError "Failed to fetch") initialState).messages =
      initialState.messages ∧
    (∀ t r, (handleSend r t).1.appStatus = t.appStatus) ∧
    (∀ t f, (handleFileChange f t).1.appStatus = t.appStatus) ∧
    (∀ t b, (handleVoiceListen b t).1.appStatus = t.appStatus) :=
  fetchHistory_failure_terminal initialState (.netError "Failed to fetch")
    (by decide)

end ThatBot

namespace ThatBot

/-- Claim C6: calling send with empty text and no pending attachment, or
with an absent session id, returns before doing anything: the whole state
(log, busy flag, everything) is unchanged and no request is issued. -/
theorem send_noop_on_empty_or_no_session (s : AppState) (resp : ChatResponse)
    (h : (s.input = "" ∧ s.selectedFile = none) ∨ s.sessionId = none) :
    handleSend resp s = (s, none) := by
  have hguard : sendGuardFails s = true := by
    rcases h with ⟨hin, hfile⟩ | hsid
    · simp [sendGuardFails, hin, hfile, jsTrim]
    · simp [sendGuardFails, isFalsyStr, hsid]
  simp [handleSend, hguard]

/-- Witness for C6: empty input on a ready state, and a missing session. -/
theorem send_noop_on_empty_or_no_session_witness :
    handleSend (.ok "hi") { readyState with input := "" } =
      ({ readyState with input := "" }, none) ∧
    handleSend (.ok "hi") { readyState with sessionId := none } =
      ({ readyState with sessionId := none }, none) :=
  ⟨send_noop_on_empty_or_no_session { readyState with input := "" } (.ok "hi")
      (Or.inl ⟨rfl, rfl⟩),
   send_noop_on_empty_or_no_session { readyState with sessionId := none }
      (.ok "hi") (Or.inr rfl)⟩

/-- Claim C7: every update performed by send is append-only — both the
optimistic intermediate log and the final log extend the previous log, which
survives unchanged and in order as an initial segment. -/
theorem send_append_only (s : AppState) (resp : ChatResponse) :
    (∃ tail, (handleSendStart s).1.messages = s.messages ++ tail) ∧
    (∃ tail, (handleSend resp s).1.messages = s.messages ++ tail) := by
  constructor
  · exact ⟨[{ sender := .user, text := jsTrim s.input, image := s.filePreview }],
      by simp [handleSendStart, removeFile]⟩
  · by_cases hg : sendGuardFails s
    · exact ⟨[], by simp [handleSend, hg]⟩
    · cases resp with
      | ok reply =>
          exact ⟨[{ sender := .user, text := jsTrim s.input,
                    image := s.filePreview },
                  { sender := .bot, text := reply, image := none }],
            by simp [handleSend, hg, handleSendStart, handleSendFinish,
                 removeFile]⟩
      | httpError errField =>
          exact ⟨[{ sender := .user, text := jsTrim s.input,
                    image := s.filePreview },
                  { sender := .bot,
                    text := "Sorry, something went wrong: " ++
                      failureReason (.httpError errField)
                    image := none }],
            by simp [handleSend, hg, handleSendStart, handleSendFinish,
                 removeFile]⟩
      | netError msg =>
          exact ⟨[{ sender := .user, text := jsTrim s.input,
                    image := s.filePreview },
                  { sender := .bot,
                    text := "Sorry, something went wrong: " ++
                      failureReason (.netError msg)
                    image := none }],
            by simp [handleSend, hg, handleSendStart, handleSendFinish,
                 removeFile]⟩

end ThatBot

namespace ThatBot

/-- A concrete image file and a concrete non-image file for witnesses. -/
def imgFile : ChatFile :=
  { type := "image/png", name := "cat.png" }

/-- A concrete non-image file for witnesses. -/
def txtFile : ChatFile :=
  { type := "text/plain", name := "notes.txt" }

/-- Claim C8: selecting an image file replaces the pending attachment slot
(last-write-wins) and installs its preview without any alert; selecting any
non-image file fires the validation alert and leaves the whole state — in
particular the pending attachment — unchanged. -/
theorem selectAttachment_image_only (s : AppState) (f : ChatFile) :
    (jsStartsWith f.type "image/" = true →
      handleFileChange (some f) s =
        ({ s with selectedFile := some f
                  filePreview := some (createObjectURL f) }, false)) ∧
    (jsStartsWith f.type "image/" = false →
      handleFileChange (some f) s = (s, true)) := by
  constructor <;> intro h <;> simp [handleFileChange, h]

/-- Witness for C8: an image replaces a previously pending attachment; a
text file is rejected with the state unchanged. -/
theorem selectAttachment_image_only_witness :
    handleFileChange (some imgFile)
        { readyState with
            selectedFile := some { type := "image/jpeg", name := "old.jpg" }
            filePreview := some "blob:old.jpg" } =
      ({ readyState with
           selectedFile := some imgFile
           filePreview := some (createObjectURL imgFile) }, false) ∧
    handleFileChange (some txtFile) readyState = (readyState, true) :=
  ⟨(selectAttachment_image_only
      { readyState with
          selectedFile := some { type := "image/jpeg", name := "old.jpg" }
          filePreview := some "blob:old.jpg" } imgFile).1 (by decide),
   (selectAttachment_image_only readyState txtFile).2 (by decide)⟩

/-- Claim C9: when the speech-recognition capability is unavailable,
toggling listening only reports the unsupported alert; the returned state is
the old state, so input text, listening flag, log, attachment, busy flag and
status are all unchanged. -/
theorem toggleListening_unsupported_noop (s : AppState) :
    handleVoiceListen false s = (s, .alertUnsupported) := by
  simp [handleVoiceListen]

/-- Claim C10: send trims its input before everything else — a whitespace-only
input with no attachment is rejected by the guard exactly like the empty
input, and an accepted send puts the trimmed text (not the raw input) both
in the appended user message and in the `message` field of the issued
request. -/
theorem send_trims_input (s : AppState) (resp : ChatResponse) :
    (jsTrim s.input = "" → s.selectedFile = none →
      handleSend resp s = (s, none)) ∧
    (sendGuardFails s = false →
      (handleSendStart s).2.message = jsTrim s.input ∧
      (handleSendStart s).1.messages =
        s.messages ++
          [{ sender := .user, text := jsTrim s.input, image := s.filePreview }] ∧
      (handleSend resp s).2 = some (handleSendStart s).2) := by
  constructor
  · intro htrim hfile
    have hguard : sendGuardFails s = true := by
      simp [sendGuardFails, htrim, hfile]
    simp [handleSend, hguard]
  · intro hguard
    refine ⟨rfl, by simp [handleSendStart, removeFile], ?_⟩
    simp [handleSend, hguard]

/-- Witness for C10: a whitespace-only input is a no-op; an input with
surrounding blanks is sent trimmed. -/
theorem send_trims_input_witness :
    handleSend (.ok "hi") { readyState with input := "   " } =
      ({ readyState with input := "   " }, none) ∧
    ((handleSendStart { readyState with input := " hi there " }).2.message =
        jsTrim (" hi there " : String) ∧
      (handleSendStart { readyState with input := " hi there " }).1.messages =
        ({ readyState with input := " hi there " } : AppState).messages ++
          [{ sender := .user, text := jsTrim (" hi there " : String)
             image := ({ readyState with
                          input := " hi there " } : AppState).filePreview }] ∧
      (handleSend (.ok "hi") { readyState with input := " hi there " }).2 =
        some (handleSendStart { readyState with input := " hi there " }).2) :=
  ⟨(send_trims_input { readyState with input := "   " } (.ok "hi")).1
      (by decide) rfl,
   (send_trims_input { readyState with input := " hi there " } (.ok "hi")).2
      (by decide)⟩

end ThatBot
